import Mathlib

/-!
# Shallow embedding of the Klassy (Breeze fork) button colour/state engine

This file embeds, in Lean 4, the logic of the two source files
`src/kdecoration/breezebutton.cpp` and
`src/kdecoration/config/titlebaropacity.cpp` that the verification claims
are about, and proves or refutes each claim.

Colours are modelled as an inductive `QColor`: either the invalid
(default-constructed) colour or an RGBA quadruple of rationals.  Machine
`qreal` values are modelled as `ℚ`.  External colour helpers whose source
is not part of this repository snapshot (`ColorTools::alphaMix`,
`ColorTools::getHigherContrastForegroundColor`,
`KColorUtils::contrastRatio`, the global `g_decorationColors` palette, the
`PenWidth::Symbol` constant) are supplied abstractly through an
environment structure `Env`: no claim depends on their internals, only on
how `breezebutton.cpp` combines their results.  `KColorUtils::mix` is an
external KDE library function with documented semantics (channel-wise
linear interpolation with the bias clamped to [0,1]) and is modelled
concretely, because claim C2 speaks about linear interpolation.
-/

namespace Klassy

/-- Model of Qt `QColor`: either invalid (default-constructed) or a valid
RGBA colour with rational channels. -/
inductive QColor where
  | invalid : QColor
  | rgba (r g b a : ℚ) : QColor
deriving DecidableEq, Repr

/-- `QColor::isValid`. -/
def QColor.isValid : QColor → Bool
  | .invalid => false
  | .rgba _ _ _ _ => true

/-- `Qt::GlobalColor::white`. -/
def qtWhite : QColor := .rgba 255 255 255 255

/-- Red channel of a colour; a default-constructed `QColor` carries zeroed
colour channels. -/
def QColor.red : QColor → ℚ
  | .invalid => 0
  | .rgba r _ _ _ => r

/-- Green channel. -/
def QColor.green : QColor → ℚ
  | .invalid => 0
  | .rgba _ g _ _ => g

/-- Blue channel. -/
def QColor.blue : QColor → ℚ
  | .invalid => 0
  | .rgba _ _ b _ => b

/-- Alpha channel; a default-constructed `QColor` has alpha 255. -/
def QColor.alpha : QColor → ℚ
  | .invalid => 255
  | .rgba _ _ _ a => a

/-- Channel-wise linear interpolation `a + (b - a) * bias`. -/
def mixQreal (a b bias : ℚ) : ℚ := a + (b - a) * bias

/-- External KDE library function `KColorUtils::mix(c1, c2, bias)`:
returns `c1` for bias ≤ 0, `c2` for bias ≥ 1, and otherwise the
channel-wise linear interpolation of the two colours (alpha included). -/
def KColorUtils.mix (c1 c2 : QColor) (bias : ℚ) : QColor :=
  if bias ≤ 0 then c1
  else if 1 ≤ bias then c2
  else .rgba (mixQreal c1.red c2.red bias) (mixQreal c1.green c2.green bias)
      (mixQreal c1.blue c2.blue bias) (mixQreal c1.alpha c2.alpha bias)

/-- `KDecoration2::DecorationButtonType`. -/
inductive DecorationButtonType where
  | Menu | ApplicationMenu | OnAllDesktops | Minimize | Maximize | Close
  | ContextHelp | Shade | KeepBelow | KeepAbove | Custom
deriving DecidableEq, Repr

/-- `InternalSettings::EnumBackgroundColors`. -/
inductive EnumBackgroundColors where
  | ColorsTitlebarText | ColorsAccent | ColorsAccentWithTrafficLights
deriving DecidableEq, Repr

/-- `InternalSettings::EnumButtonShape` (the constructors referenced by
`breezebutton.cpp`; `ShapeSmallCircle` stands for the remaining,
circle-drawing shape value). -/
inductive EnumButtonShape where
  | ShapeSmallCircle
  | ShapeSmallSquare
  | ShapeSmallRoundedSquare
  | ShapeFullHeightRectangle
  | ShapeFullHeightRoundedRectangle
  | ShapeIntegratedRoundedRectangle
deriving DecidableEq, Repr

/-- `ButtonBackgroundType` (from breeze.h): full-height or small button
background geometry. -/
inductive ButtonBackgroundType where
  | FullHeight | Small
deriving DecidableEq, Repr

/-- The fields of `InternalSettings` that `breezebutton.cpp` reads. -/
structure InternalSettings where
  backgroundColors : EnumBackgroundColors
  translucentButtonBackgrounds : Bool
  redAlwaysShownClose : Bool
  buttonShape : EnumButtonShape
  cornerRadius : ℚ
deriving DecidableEq, Repr

/-- `Decoration::m_buttonBehaviouralParameters`: the behavioural flags
read by the colour resolvers. -/
structure ButtonBehaviouralParameters where
  drawBackgroundAlways : Bool
  drawBackgroundOnHover : Bool
  drawBackgroundOnFocus : Bool
  drawCloseBackgroundAlways : Bool
  drawCloseBackgroundOnHover : Bool
  drawCloseBackgroundOnFocus : Bool
  drawOutlineAlways : Bool
  drawOutlineOnHover : Bool
  drawOutlineOnFocus : Bool
  drawCloseOutlineAlways : Bool
  drawCloseOutlineOnHover : Bool
  drawCloseOutlineOnFocus : Bool
  drawIconAlways : Bool
  drawIconOnHover : Bool
  drawIconOnFocus : Bool
deriving DecidableEq, Repr

/-- The fields of the global `g_decorationColors` palette referenced by
`breezebutton.cpp`.  Their values are produced elsewhere in the repository
(decorationcolors.cpp, not part of this snapshot) and are treated as
opaque colour inputs. -/
structure DecorationColorPalette where
  negative : QColor
  negativeSaturated : QColor
  negativeLessSaturated : QColor
  fullySaturatedNegative : QColor
  negativeReducedOpacityBackground : QColor
  negativeReducedOpacityOutline : QColor
  negativeReducedOpacityLessSaturatedBackground : QColor
  neutral : QColor
  neutralSaturated : QColor
  neutralLessSaturated : QColor
  neutralReducedOpacityBackground : QColor
  neutralReducedOpacityOutline : QColor
  positive : QColor
  positiveSaturated : QColor
  positiveLessSaturated : QColor
  positiveReducedOpacityBackground : QColor
  positiveReducedOpacityOutline : QColor
  buttonFocus : QColor
  buttonHover : QColor
  buttonReducedOpacityBackground : QColor
  buttonReducedOpacityOutline : QColor
deriving DecidableEq, Repr

/-- Abstract environment: external helpers whose implementation lives
outside the two source files of this snapshot.  `alphaMix` models
`ColorTools::alphaMix`, `contrastBoost` models the output parameter of
`ColorTools::getHigherContrastForegroundColor`, `contrastRatio` models
`KColorUtils::contrastRatio`, `decorationColors` models the global
`g_decorationColors` palette, and `penWidthSymbol` models the constant
`PenWidth::Symbol` from breeze.h. -/
structure Env where
  alphaMix : QColor → ℚ → QColor
  contrastBoost : QColor → QColor → ℚ → QColor
  contrastRatio : QColor → QColor → ℚ
  decorationColors : DecorationColorPalette
  penWidthSymbol : ℚ

/-- The fields of `Breeze::Decoration` that `breezebutton.cpp` reads. -/
structure Decoration where
  internalSettings : InternalSettings
  buttonBehaviouralParameters : ButtonBehaviouralParameters
  fontColor : QColor
  titleBarColor : QColor
  animationsDuration : Int
  buttonBackgroundType : ButtonBackgroundType
deriving Repr

/-- The per-button mutable state read by the colour resolvers and by
`Button::paint` / `Button::drawIcon`. -/
structure ButtonState where
  btnType : DecorationButtonType
  hovered : Bool
  pressed : Bool
  checked : Bool
  /-- `m_animation->state() == QAbstractAnimation::Running`. -/
  animationRunning : Bool
  /-- `m_opacity`, the animation's current value. -/
  opacity : ℚ
  preAnimationForegroundColor : QColor
  preAnimationBackgroundColor : QColor
  preAnimationOutlineColor : QColor
  /-- `m_lowContrastBetweenTitleBarAndBackground`, set by `Button::paint`. -/
  lowContrastBetweenTitleBarAndBackground : Bool
  isGtkCsdButton : Bool
  standalone : Bool
  devicePixelRatio : ℚ
  /-- `m_standardScaledPenWidth`, set by `Button::setStandardScaledPenWidth`. -/
  standardScaledPenWidth : ℚ
deriving Repr

/-- The internal state enum of `Button::foregroundColor`
(`enum struct ForegroundColorState`). -/
inductive ForegroundColorState where
  | none | normal | animatedHover | hover | focus
deriving DecidableEq, Repr

/-- `backgroundColors()` equals ColorsAccent or
ColorsAccentWithTrafficLights — the repeated accent test of the source. -/
def isAccentColors (s : InternalSettings) : Bool :=
  s.backgroundColors = EnumBackgroundColors.ColorsAccent
    || s.backgroundColors = EnumBackgroundColors.ColorsAccentWithTrafficLights

/-- The state-determination chain of `Button::foregroundColor`
(breezebutton.cpp lines 383-403), in source order. -/
def foregroundColorState (d : Decoration) (st : ButtonState) : ForegroundColorState :=
  let p := d.buttonBehaviouralParameters
  if st.pressed && p.drawIconOnFocus then .focus
  else if (st.btnType = DecorationButtonType.KeepBelow
      || st.btnType = DecorationButtonType.KeepAbove
      || st.btnType = DecorationButtonType.Shade) && st.checked then .focus
  else if st.btnType = DecorationButtonType.OnAllDesktops && st.checked then
    (if d.internalSettings.backgroundColors = EnumBackgroundColors.ColorsTitlebarText
        && !d.internalSettings.translucentButtonBackgrounds && !st.hovered then .normal
     else .focus)
  else if st.pressed && p.drawIconOnFocus then .focus
  else if st.animationRunning && p.drawIconOnHover then .animatedHover
  else if st.hovered && p.drawIconOnHover then .hover
  else if p.drawIconAlways then .normal
  else .none

/-- The (normal, hover, focus) foreground palette chosen by
`Button::foregroundColor` (breezebutton.cpp lines 405-465). -/
def foregroundPalette (d : Decoration) (st : ButtonState)
    (fontColorContrastBoosted : QColor) : QColor × QColor × QColor :=
  let p := d.buttonBehaviouralParameters
  let s := d.internalSettings
  if st.btnType = DecorationButtonType.Close then
    if s.redAlwaysShownClose then
      if p.drawBackgroundAlways then
        if p.drawCloseBackgroundAlways
            && s.backgroundColors = EnumBackgroundColors.ColorsTitlebarText
            && !s.translucentButtonBackgrounds then
          (d.titleBarColor, qtWhite, qtWhite)
        else
          (fontColorContrastBoosted,
           if p.drawCloseBackgroundOnHover then qtWhite else fontColorContrastBoosted,
           if p.drawCloseBackgroundOnFocus then qtWhite else fontColorContrastBoosted)
      else if p.drawCloseBackgroundAlways then
        (qtWhite, qtWhite, qtWhite)
      else
        (fontColorContrastBoosted,
         if p.drawCloseBackgroundOnHover then qtWhite else fontColorContrastBoosted,
         if p.drawCloseBackgroundOnFocus then qtWhite else fontColorContrastBoosted)
    else if s.backgroundColors ≠ EnumBackgroundColors.ColorsTitlebarText then
      (fontColorContrastBoosted,
       if p.drawCloseBackgroundOnHover then qtWhite else fontColorContrastBoosted,
       if p.drawCloseBackgroundOnFocus then qtWhite else fontColorContrastBoosted)
    else if s.translucentButtonBackgrounds then
      (fontColorContrastBoosted,
       if p.drawCloseBackgroundOnHover then qtWhite else fontColorContrastBoosted,
       if p.drawCloseBackgroundOnFocus then qtWhite else fontColorContrastBoosted)
    else
      if p.drawCloseBackgroundAlways then
        (d.titleBarColor, qtWhite, qtWhite)
      else
        (d.fontColor,
         if p.drawCloseBackgroundOnHover then qtWhite else fontColorContrastBoosted,
         if p.drawCloseBackgroundOnFocus then qtWhite else fontColorContrastBoosted)
  else
    if s.backgroundColors = EnumBackgroundColors.ColorsTitlebarText
        && !s.translucentButtonBackgrounds then
      if p.drawBackgroundAlways then
        (d.titleBarColor, d.titleBarColor, d.titleBarColor)
      else
        (d.fontColor,
         if p.drawCloseBackgroundOnHover then d.titleBarColor else d.fontColor,
         if p.drawCloseBackgroundOnFocus then d.titleBarColor else d.fontColor)
    else
      (fontColorContrastBoosted, fontColorContrastBoosted, fontColorContrastBoosted)

/-- `Button::foregroundColor(const QColor &backgroundContrastedColor)`
(breezebutton.cpp lines 360-482).  `deco` is `none` when
`qobject_cast<Decoration *>(decoration())` is null. -/
def foregroundColor (env : Env) (deco : Option Decoration) (st : ButtonState)
    (backgroundContrastedColor : QColor) : QColor :=
  match deco with
  | Option.none => QColor.invalid
  | some d =>
    let fontColorContrastBoosted :=
      if backgroundContrastedColor.isValid then
        env.contrastBoost d.fontColor backgroundContrastedColor (23/10)
      else d.fontColor
    let fgState := foregroundColorState d st
    let pal := foregroundPalette d st fontColorContrastBoosted
    let normalForeground := pal.1
    let hoverForeground := pal.2.1
    let focusForeground := pal.2.2
    match fgState with
    | .normal => normalForeground
    | .animatedHover =>
      if st.preAnimationForegroundColor.isValid then
        KColorUtils.mix st.preAnimationForegroundColor hoverForeground st.opacity
      else env.alphaMix hoverForeground st.opacity
    | .hover => hoverForeground
    | .focus => focusForeground
    | .none => QColor.invalid

/-- The (buttonNormalColor, buttonHoverColor, buttonFocusColor) palette of
`Button::backgroundColor` (breezebutton.cpp lines 498-730).  Colours that
a branch leaves unassigned stay the default-constructed invalid colour. -/
def backgroundPalette (env : Env) (d : Decoration) (st : ButtonState) :
    QColor × QColor × QColor :=
  let p := d.buttonBehaviouralParameters
  let s := d.internalSettings
  let gc := env.decorationColors
  let inv := QColor.invalid
  if isAccentColors s then
    if s.translucentButtonBackgrounds then
      if st.btnType = DecorationButtonType.Close then
        if p.drawCloseBackgroundAlways then
          if s.redAlwaysShownClose then
            (gc.negativeReducedOpacityBackground,
             if p.drawCloseBackgroundOnHover then gc.negativeReducedOpacityOutline else inv,
             if p.drawCloseBackgroundOnFocus then gc.fullySaturatedNegative else inv)
          else
            (gc.buttonReducedOpacityBackground,
             if p.drawCloseBackgroundOnHover then gc.negativeReducedOpacityOutline else inv,
             if p.drawCloseBackgroundOnFocus then gc.fullySaturatedNegative else inv)
        else
          (inv,
           if p.drawCloseBackgroundOnHover then gc.negativeReducedOpacityBackground else inv,
           if p.drawCloseBackgroundOnFocus then gc.negativeReducedOpacityOutline else inv)
      else if st.btnType = DecorationButtonType.Minimize
          && s.backgroundColors = EnumBackgroundColors.ColorsAccentWithTrafficLights then
        if p.drawBackgroundAlways then
          (gc.neutralReducedOpacityBackground,
           if p.drawBackgroundOnHover then gc.neutralReducedOpacityOutline else inv,
           if p.drawBackgroundOnFocus then gc.neutral else inv)
        else
          (inv,
           if p.drawBackgroundOnHover then gc.neutralReducedOpacityBackground else inv,
           if p.drawBackgroundOnFocus then gc.neutralReducedOpacityOutline else inv)
      else if st.btnType = DecorationButtonType.Maximize
          && s.backgroundColors = EnumBackgroundColors.ColorsAccentWithTrafficLights then
        if p.drawBackgroundAlways then
          (gc.positiveReducedOpacityBackground,
           if p.drawBackgroundOnHover then gc.positiveReducedOpacityOutline else inv,
           if p.drawBackgroundOnFocus then gc.positive else inv)
        else
          (inv,
           if p.drawBackgroundOnHover then gc.positiveReducedOpacityBackground else inv,
           if p.drawBackgroundOnFocus then gc.positiveReducedOpacityOutline else inv)
      else
        if p.drawBackgroundAlways then
          (gc.buttonReducedOpacityBackground,
           if p.drawBackgroundOnHover then gc.buttonReducedOpacityOutline else inv,
           if p.drawBackgroundOnFocus then gc.buttonFocus else inv)
        else
          (inv,
           if p.drawBackgroundOnHover then gc.buttonReducedOpacityBackground else inv,
           if p.drawBackgroundOnFocus then gc.buttonReducedOpacityOutline else inv)
    else
      -- accent but not translucent
      if st.btnType = DecorationButtonType.Close then
        if p.drawCloseBackgroundAlways then
          if s.redAlwaysShownClose then
            (gc.negative,
             if p.drawCloseBackgroundOnHover then gc.negativeSaturated else inv,
             if p.drawCloseBackgroundOnFocus then gc.negativeLessSaturated else inv)
          else
            (KColorUtils.mix d.titleBarColor gc.buttonHover (1/2),
             if p.drawCloseBackgroundOnHover then gc.negativeSaturated else inv,
             if p.drawCloseBackgroundOnFocus then gc.negativeLessSaturated else inv)
        else
          (inv,
           if p.drawCloseBackgroundOnHover then gc.negative else inv,
           if p.drawCloseBackgroundOnFocus then gc.negativeSaturated else inv)
      else if st.btnType = DecorationButtonType.Minimize
          && s.backgroundColors = EnumBackgroundColors.ColorsAccentWithTrafficLights then
        if p.drawBackgroundAlways then
          (gc.neutralLessSaturated,
           if p.drawBackgroundOnHover then gc.neutral else inv,
           if p.drawBackgroundOnFocus then gc.neutralSaturated else inv)
        else
          (inv,
           if p.drawBackgroundOnHover then gc.neutralLessSaturated else inv,
           if p.drawBackgroundOnFocus then gc.neutral else inv)
      else if st.btnType = DecorationButtonType.Maximize
          && s.backgroundColors = EnumBackgroundColors.ColorsAccentWithTrafficLights then
        if p.drawBackgroundAlways then
          (gc.positiveLessSaturated,
           if p.drawBackgroundOnHover then gc.positive else inv,
           if p.drawBackgroundOnFocus then gc.positiveSaturated else inv)
        else
          (inv,
           if p.drawBackgroundOnHover then gc.positiveLessSaturated else inv,
           if p.drawBackgroundOnFocus then gc.positive else inv)
      else
        if p.drawBackgroundAlways then
          (KColorUtils.mix d.titleBarColor gc.buttonHover (1/2),
           if p.drawBackgroundOnHover then gc.buttonHover else inv,
           if p.drawBackgroundOnFocus then gc.buttonFocus else inv)
        else
          (inv,
           if p.drawBackgroundOnHover then gc.buttonHover else inv,
           if p.drawBackgroundOnFocus then gc.buttonFocus else inv)
  else
    if s.translucentButtonBackgrounds then
      -- titlebar text colour, translucent
      if st.btnType = DecorationButtonType.Close then
        if p.drawCloseBackgroundAlways then
          if s.redAlwaysShownClose then
            -- NB: in this branch the focus colour is assigned with no
            -- drawCloseBackgroundOnFocus guard (breezebutton.cpp line 651)
            (gc.negativeReducedOpacityBackground,
             if p.drawCloseBackgroundOnHover then gc.negativeReducedOpacityOutline else inv,
             gc.negativeReducedOpacityLessSaturatedBackground)
          else
            (env.alphaMix d.fontColor (15/100),
             if p.drawCloseBackgroundOnHover then gc.negativeReducedOpacityOutline else inv,
             if p.drawCloseBackgroundOnFocus then gc.negativeReducedOpacityBackground else inv)
        else
          (inv,
           if p.drawCloseBackgroundOnHover then gc.negativeReducedOpacityBackground else inv,
           if p.drawCloseBackgroundOnFocus then gc.negativeReducedOpacityOutline else inv)
      else
        if p.drawBackgroundAlways then
          (env.alphaMix d.fontColor (15/100),
           if p.drawBackgroundOnHover then env.alphaMix d.fontColor (25/100) else inv,
           if p.drawBackgroundOnFocus then env.alphaMix d.fontColor (35/100) else inv)
        else
          (inv,
           if p.drawBackgroundOnHover then env.alphaMix d.fontColor (15/100) else inv,
           if p.drawBackgroundOnFocus then env.alphaMix d.fontColor (25/100) else inv)
    else
      -- titlebar text colour, not translucent
      if st.btnType = DecorationButtonType.Close then
        -- NB: the first test is drawBackgroundAlways, not
        -- drawCloseBackgroundAlways (breezebutton.cpp line 681)
        if p.drawBackgroundAlways then
          if s.redAlwaysShownClose then
            (gc.negative,
             if p.drawCloseBackgroundOnHover then gc.negativeSaturated else inv,
             if p.drawCloseBackgroundOnFocus then gc.negativeLessSaturated else inv)
          else
            (KColorUtils.mix d.titleBarColor d.fontColor (3/10),
             if p.drawCloseBackgroundOnHover then gc.negativeSaturated else inv,
             if p.drawCloseBackgroundOnFocus then gc.negativeLessSaturated else inv)
        else if p.drawCloseBackgroundAlways then
          if s.redAlwaysShownClose then
            (gc.negative,
             if p.drawCloseBackgroundOnHover then gc.negativeSaturated else inv,
             if p.drawCloseBackgroundOnFocus then gc.negativeLessSaturated else inv)
          else
            (d.fontColor,
             if p.drawCloseBackgroundOnHover then gc.negativeSaturated else inv,
             if p.drawCloseBackgroundOnFocus then gc.negativeLessSaturated else inv)
        else
          (inv,
           if p.drawCloseBackgroundOnHover then gc.negative else inv,
           if p.drawCloseBackgroundOnFocus then gc.negativeSaturated else inv)
      else
        if p.drawBackgroundAlways then
          (KColorUtils.mix d.titleBarColor d.fontColor (3/10),
           if p.drawBackgroundOnHover then KColorUtils.mix d.titleBarColor d.fontColor (6/10) else inv,
           if p.drawBackgroundOnFocus then d.fontColor else inv)
        else
          (inv,
           if p.drawBackgroundOnHover then d.fontColor else inv,
           if p.drawBackgroundOnFocus then KColorUtils.mix d.titleBarColor d.fontColor (3/10) else inv)

/-- `Button::backgroundColor(QColor &foregroundContrastedColor, bool
getNonAnimatedColor)` (breezebutton.cpp lines 491-775).  The C++ output
parameter is modelled as the second component of the returned pair; the
caller (`Button::paint`) always passes a freshly default-constructed
(invalid) colour, which the null-decoration early return leaves
untouched. -/
def backgroundColorPair (env : Env) (deco : Option Decoration) (st : ButtonState)
    (getNonAnimatedColor : Bool) : QColor × QColor :=
  match deco with
  | Option.none => (QColor.invalid, QColor.invalid)
  | some d =>
    let s := d.internalSettings
    let inv := QColor.invalid
    let analyseContrastWithForeground :=
      !s.translucentButtonBackgrounds
        && (s.backgroundColors = EnumBackgroundColors.ColorsAccent
            || s.backgroundColors = EnumBackgroundColors.ColorsAccentWithTrafficLights)
    let pal := backgroundPalette env d st
    let buttonNormalColor := pal.1
    let buttonHoverColor := pal.2.1
    let buttonFocusColor := pal.2.2
    if (st.btnType = DecorationButtonType.KeepBelow
        || st.btnType = DecorationButtonType.KeepAbove
        || st.btnType = DecorationButtonType.Shade) && st.checked then
      if isAccentColors s then
        (buttonFocusColor, if analyseContrastWithForeground then buttonFocusColor else inv)
      else
        (buttonHoverColor, if analyseContrastWithForeground then buttonHoverColor else inv)
    else if st.btnType = DecorationButtonType.OnAllDesktops && st.checked
        && isAccentColors s then
      (buttonFocusColor, if analyseContrastWithForeground then buttonFocusColor else inv)
    else if st.pressed then
      (buttonFocusColor, if analyseContrastWithForeground then buttonFocusColor else inv)
    else if st.animationRunning && !getNonAnimatedColor then
      if st.preAnimationBackgroundColor.isValid && buttonHoverColor.isValid then
        (KColorUtils.mix st.preAnimationBackgroundColor buttonHoverColor st.opacity,
         if analyseContrastWithForeground then buttonHoverColor else inv)
      else if buttonHoverColor.isValid then
        (env.alphaMix buttonHoverColor st.opacity,
         if analyseContrastWithForeground then buttonHoverColor else inv)
      else (inv, inv)
    else if st.hovered then
      (buttonHoverColor, if analyseContrastWithForeground then buttonHoverColor else inv)
    else
      (buttonNormalColor, if analyseContrastWithForeground then buttonNormalColor else inv)

/-- `Button::backgroundColor(const bool getNonAnimatedColor)`
(breezebutton.cpp lines 485-489): the overload that discards the
contrast output parameter. -/
def backgroundColor (env : Env) (deco : Option Decoration) (st : ButtonState)
    (getNonAnimatedColor : Bool) : QColor :=
  (backgroundColorPair env deco st getNonAnimatedColor).1

/-- The six effective outline-draw flags computed at the top of
`Button::outlineColor` (breezebutton.cpp lines 784-803). -/
structure EffectiveOutlineFlags where
  drawOutlineAlways : Bool
  drawOutlineOnHover : Bool
  drawOutlineOnFocus : Bool
  drawCloseOutlineAlways : Bool
  drawCloseOutlineOnHover : Bool
  drawCloseOutlineOnFocus : Bool
deriving DecidableEq, Repr

/-- `Button::outlineColor`'s flag computation: under low contrast between
titlebar and background, each outline flag is OR-ed with the
corresponding background flag; otherwise the configured outline flag is
used unchanged (breezebutton.cpp lines 786-803). -/
def effectiveOutlineFlags (p : ButtonBehaviouralParameters) (lowContrast : Bool) :
    EffectiveOutlineFlags where
  drawOutlineAlways :=
    if lowContrast then p.drawOutlineAlways || p.drawBackgroundAlways
    else p.drawOutlineAlways
  drawOutlineOnHover :=
    if lowContrast then p.drawOutlineOnHover || p.drawBackgroundOnHover
    else p.drawOutlineOnHover
  drawOutlineOnFocus :=
    if lowContrast then p.drawOutlineOnFocus || p.drawBackgroundOnFocus
    else p.drawOutlineOnFocus
  drawCloseOutlineAlways :=
    if lowContrast then p.drawCloseOutlineAlways || p.drawCloseBackgroundAlways
    else p.drawCloseOutlineAlways
  drawCloseOutlineOnHover :=
    if lowContrast then p.drawCloseOutlineOnHover || p.drawCloseBackgroundOnHover
    else p.drawCloseOutlineOnHover
  drawCloseOutlineOnFocus :=
    if lowContrast then p.drawCloseOutlineOnFocus || p.drawCloseBackgroundOnFocus
    else p.drawCloseOutlineOnFocus

/-- The (buttonOutlineNormalColor, buttonOutlineHoverColor,
buttonOutlineFocusColor) palette of `Button::outlineColor`
(breezebutton.cpp lines 805-1018), before the low-contrast correction. -/
def outlinePalette (env : Env) (d : Decoration) (st : ButtonState)
    (f : EffectiveOutlineFlags) : QColor × QColor × QColor :=
  let s := d.internalSettings
  let gc := env.decorationColors
  let inv := QColor.invalid
  if isAccentColors s then
    if s.translucentButtonBackgrounds then
      if st.btnType = DecorationButtonType.Close then
        if f.drawCloseOutlineAlways then
          if s.redAlwaysShownClose then
            (gc.negativeReducedOpacityOutline,
             if f.drawCloseOutlineOnHover then gc.negativeReducedOpacityOutline else inv,
             if f.drawCloseOutlineOnFocus then gc.negativeReducedOpacityOutline else inv)
          else
            (gc.buttonReducedOpacityOutline,
             if f.drawCloseOutlineOnHover then gc.negativeReducedOpacityOutline else inv,
             if f.drawCloseOutlineOnFocus then gc.negativeReducedOpacityOutline else inv)
        else
          (inv,
           if f.drawCloseOutlineOnHover then gc.negativeReducedOpacityOutline else inv,
           if f.drawCloseOutlineOnFocus then gc.negativeReducedOpacityOutline else inv)
      else if st.btnType = DecorationButtonType.Minimize
          && s.backgroundColors = EnumBackgroundColors.ColorsAccentWithTrafficLights then
        if f.drawOutlineAlways then
          (gc.neutralReducedOpacityOutline,
           if f.drawOutlineOnHover then gc.neutralReducedOpacityOutline else inv,
           if f.drawOutlineOnFocus then gc.neutralReducedOpacityOutline else inv)
        else
          (inv,
           if f.drawOutlineOnHover then gc.neutralReducedOpacityOutline else inv,
           if f.drawOutlineOnFocus then gc.neutralReducedOpacityOutline else inv)
      else if st.btnType = DecorationButtonType.Maximize
          && s.backgroundColors = EnumBackgroundColors.ColorsAccentWithTrafficLights then
        if f.drawOutlineAlways then
          (gc.positiveReducedOpacityOutline,
           if f.drawOutlineOnHover then gc.positiveReducedOpacityOutline else inv,
           if f.drawOutlineOnFocus then gc.positiveReducedOpacityOutline else inv)
        else
          (inv,
           if f.drawOutlineOnHover then gc.positiveReducedOpacityOutline else inv,
           if f.drawOutlineOnFocus then gc.positiveReducedOpacityOutline else inv)
      else
        if f.drawOutlineAlways then
          (gc.buttonReducedOpacityOutline,
           if f.drawOutlineOnHover then gc.buttonReducedOpacityOutline else inv,
           if f.drawOutlineOnFocus then gc.buttonReducedOpacityOutline else inv)
        else
          (inv,
           if f.drawOutlineOnHover then gc.buttonReducedOpacityOutline else inv,
           if f.drawOutlineOnFocus then gc.buttonReducedOpacityOutline else inv)
    else
      -- non-translucent accent colours
      if st.btnType = DecorationButtonType.Close then
        if f.drawCloseOutlineAlways then
          if s.redAlwaysShownClose then
            (gc.negativeSaturated,
             if f.drawCloseOutlineOnHover then gc.negativeSaturated else inv,
             if f.drawCloseOutlineOnFocus then gc.negativeSaturated else inv)
          else
            (gc.buttonFocus,
             if f.drawCloseOutlineOnHover then gc.negativeSaturated else inv,
             if f.drawCloseOutlineOnFocus then gc.negativeSaturated else inv)
        else
          (inv,
           if f.drawCloseOutlineOnHover then gc.negativeSaturated else inv,
           if f.drawCloseOutlineOnFocus then gc.negativeSaturated else inv)
      else if st.btnType = DecorationButtonType.Minimize
          && s.backgroundColors = EnumBackgroundColors.ColorsAccentWithTrafficLights then
        if f.drawOutlineAlways then
          (gc.neutral,
           if f.drawOutlineOnHover then gc.neutral else inv,
           if f.drawOutlineOnFocus then gc.neutral else inv)
        else
          (inv,
           if f.drawOutlineOnHover then gc.neutral else inv,
           if f.drawOutlineOnFocus then gc.neutral else inv)
      else if st.btnType = DecorationButtonType.Maximize
          && s.backgroundColors = EnumBackgroundColors.ColorsAccentWithTrafficLights then
        if f.drawOutlineAlways then
          (gc.positive,
           if f.drawOutlineOnHover then gc.positive else inv,
           if f.drawOutlineOnFocus then gc.positive else inv)
        else
          (inv,
           if f.drawOutlineOnHover then gc.positive else inv,
           if f.drawOutlineOnFocus then gc.positive else inv)
      else
        if f.drawOutlineAlways then
          (gc.buttonFocus,
           if f.drawOutlineOnHover then gc.buttonFocus else inv,
           if f.drawOutlineOnFocus then gc.buttonFocus else inv)
        else
          (inv,
           if f.drawOutlineOnHover then gc.buttonFocus else inv,
           if f.drawOutlineOnFocus then gc.buttonFocus else inv)
  else
    if s.translucentButtonBackgrounds then
      -- titlebar text colour, translucent
      if st.btnType = DecorationButtonType.Close then
        if f.drawCloseOutlineAlways then
          if s.redAlwaysShownClose then
            (gc.negativeReducedOpacityOutline,
             if f.drawCloseOutlineOnHover then gc.negativeReducedOpacityOutline else inv,
             if f.drawCloseOutlineOnFocus then gc.negativeReducedOpacityOutline else inv)
          else
            (env.alphaMix d.fontColor (25/100),
             if f.drawCloseOutlineOnHover then gc.negativeReducedOpacityOutline else inv,
             if f.drawCloseOutlineOnFocus then gc.negativeReducedOpacityOutline else inv)
        else
          (inv,
           if f.drawCloseOutlineOnHover then gc.negativeReducedOpacityOutline else inv,
           if f.drawCloseOutlineOnFocus then gc.negativeReducedOpacityOutline else inv)
      else
        if f.drawOutlineAlways then
          (env.alphaMix d.fontColor (25/100),
           if f.drawOutlineOnHover then env.alphaMix d.fontColor (25/100) else inv,
           if f.drawOutlineOnFocus then env.alphaMix d.fontColor (25/100) else inv)
        else
          (inv,
           if f.drawOutlineOnHover then env.alphaMix d.fontColor (25/100) else inv,
           if f.drawOutlineOnFocus then env.alphaMix d.fontColor (25/100) else inv)
    else
      -- titlebar text colour, non-translucent
      if st.btnType = DecorationButtonType.Close then
        if f.drawCloseOutlineAlways then
          if s.redAlwaysShownClose then
            (gc.negativeSaturated,
             if f.drawCloseOutlineOnHover then gc.negativeSaturated else inv,
             if f.drawCloseOutlineOnFocus then gc.negativeSaturated else inv)
          else
            (KColorUtils.mix d.titleBarColor d.fontColor (3/10),
             if f.drawCloseOutlineOnHover then gc.negativeSaturated else inv,
             if f.drawCloseOutlineOnFocus then gc.negativeSaturated else inv)
        else
          (inv,
           if f.drawCloseOutlineOnHover then gc.negativeSaturated else inv,
           if f.drawCloseOutlineOnFocus then gc.negativeSaturated else inv)
      else
        if f.drawOutlineAlways then
          (KColorUtils.mix d.titleBarColor d.fontColor (3/10),
           if f.drawOutlineOnHover then KColorUtils.mix d.titleBarColor d.fontColor (3/10) else inv,
           if f.drawOutlineOnFocus then KColorUtils.mix d.titleBarColor d.fontColor (3/10) else inv)
        else
          (inv,
           if f.drawOutlineOnHover then KColorUtils.mix d.titleBarColor d.fontColor (3/10) else inv,
           if f.drawOutlineOnFocus then KColorUtils.mix d.titleBarColor d.fontColor (3/10) else inv)

/-- The low-contrast correction applied to each outline palette colour for
accent colour schemes (breezebutton.cpp lines 1020-1033). -/
def outlineLowContrastCorrection (env : Env) (d : Decoration) (c : QColor) : QColor :=
  if c.isValid && decide (env.contrastRatio c d.titleBarColor < 13/10) then
    KColorUtils.mix c d.fontColor (4/10)
  else c

/-- `Button::outlineColor(bool getNonAnimatedColor)` (breezebutton.cpp
lines 778-1056). -/
def outlineColor (env : Env) (deco : Option Decoration) (st : ButtonState)
    (getNonAnimatedColor : Bool) : QColor :=
  match deco with
  | Option.none => QColor.invalid
  | some d =>
    let s := d.internalSettings
    let f := effectiveOutlineFlags d.buttonBehaviouralParameters
      st.lowContrastBetweenTitleBarAndBackground
    let pal := outlinePalette env d st f
    let buttonOutlineNormalColor :=
      if isAccentColors s then outlineLowContrastCorrection env d pal.1 else pal.1
    let buttonOutlineHoverColor :=
      if isAccentColors s then outlineLowContrastCorrection env d pal.2.1 else pal.2.1
    let buttonOutlineFocusColor :=
      if isAccentColors s then outlineLowContrastCorrection env d pal.2.2 else pal.2.2
    if st.checked && (st.btnType = DecorationButtonType.KeepBelow
        || st.btnType = DecorationButtonType.KeepAbove
        || st.btnType = DecorationButtonType.Shade) then
      buttonOutlineFocusColor
    else if st.btnType = DecorationButtonType.OnAllDesktops && st.checked
        && isAccentColors s then
      buttonOutlineFocusColor
    else if st.pressed then
      buttonOutlineFocusColor
    else if st.animationRunning && !getNonAnimatedColor then
      if st.preAnimationOutlineColor.isValid && buttonOutlineHoverColor.isValid then
        KColorUtils.mix st.preAnimationOutlineColor buttonOutlineHoverColor st.opacity
      else if buttonOutlineHoverColor.isValid then
        env.alphaMix buttonOutlineHoverColor st.opacity
      else QColor.invalid
    else if st.hovered then
      buttonOutlineHoverColor
    else
      buttonOutlineNormalColor

/-- The icon glyphs of `RenderDecorationButtonIcon18By18` dispatched by the
switch in `Button::drawIcon` (breezebutton.cpp lines 298-355). -/
inductive IconKind where
  | closeIcon | restoreIcon | maximizeIcon | minimizeIcon
  | pinnedOnAllDesktopsIcon | pinOnAllDesktopsIcon
  | unShadeIcon | shadeIcon | keepBehindIcon | keepInFrontIcon
  | applicationMenuIcon | contextHelpIcon
deriving DecidableEq, Repr

/-- Which renderer icon the switch in `Button::drawIcon` selects for a
button type and checked state; `none` for the default case (and for the
Menu type, which `Button::paint` never routes through `drawIcon`). -/
def renderedIcon : DecorationButtonType → Bool → Option IconKind
  | .Close, _ => some .closeIcon
  | .Maximize, checked => some (if checked then .restoreIcon else .maximizeIcon)
  | .Minimize, _ => some .minimizeIcon
  | .OnAllDesktops, checked =>
    some (if checked then .pinnedOnAllDesktopsIcon else .pinOnAllDesktopsIcon)
  | .Shade, checked => some (if checked then .unShadeIcon else .shadeIcon)
  | .KeepBelow, _ => some .keepBehindIcon
  | .KeepAbove, _ => some .keepInFrontIcon
  | .ApplicationMenu, _ => some .applicationMenuIcon
  | .ContextHelp, _ => some .contextHelpIcon
  | _, _ => Option.none

/-- Model of the Qt pen configured in `Button::drawIcon`. -/
structure QPen where
  color : QColor
  widthF : ℚ
  cosmetic : Bool
deriving DecidableEq, Repr

/-- The pen `Button::drawIcon` sets up for rendering the icon mark
(breezebutton.cpp lines 271-283): GTK CSD buttons get a non-cosmetic pen
of width `PenWidth::Symbol`, all other buttons a cosmetic pen of width
`m_standardScaledPenWidth`. -/
def iconMarkPen (env : Env) (st : ButtonState) (fg : QColor) : QPen :=
  if st.isGtkCsdButton then
    { color := fg, widthF := env.penWidthSymbol, cosmetic := false }
  else
    { color := fg, widthF := st.standardScaledPenWidth, cosmetic := true }

/-- `Button::setStandardScaledPenWidth` (breezebutton.cpp lines
1356-1360): `PenWidth::Symbol` scaled by the device pixel ratio. -/
def standardScaledPenWidthValue (env : Env) (devicePixelRatio : ℚ) : ℚ :=
  env.penWidthSymbol * devicePixelRatio

/-- The three shapes `Button::paintSmallSizedButtonBackground` can draw. -/
inductive SmallBackgroundShape where
  | square | roundedSquare | ellipseShape
deriving DecidableEq, Repr

/-- The shape-selection decision of
`Button::paintSmallSizedButtonBackground` (breezebutton.cpp lines
1307-1336). -/
def smallButtonBackgroundShape (s : InternalSettings) : SmallBackgroundShape :=
  if s.buttonShape = EnumButtonShape.ShapeSmallSquare
      || s.buttonShape = EnumButtonShape.ShapeFullHeightRectangle
      || (decide (s.cornerRadius < 1/5)
          && s.buttonShape = EnumButtonShape.ShapeFullHeightRoundedRectangle)
      || (decide (s.cornerRadius < 1/5)
          && s.buttonShape = EnumButtonShape.ShapeIntegratedRoundedRectangle) then
    .square
  else if s.buttonShape = EnumButtonShape.ShapeSmallRoundedSquare
      || s.buttonShape = EnumButtonShape.ShapeFullHeightRoundedRectangle
      || s.buttonShape = EnumButtonShape.ShapeIntegratedRoundedRectangle then
    .roundedSquare
  else
    .ellipseShape

/-- `Button::paintSmallSizedButtonBackground` (breezebutton.cpp lines
1270-1339): returns the drawn shape, or `none` for the early return when
neither the background nor the outline colour is valid. -/
def paintSmallSizedButtonBackground (s : InternalSettings)
    (bg outline : QColor) : Option SmallBackgroundShape :=
  if !bg.isValid && !outline.isValid then Option.none
  else some (smallButtonBackgroundShape s)

/-- The observable actions of one `Button::paint` invocation, in program
order: colour resolutions followed by drawing. -/
inductive PaintAction where
  | resolveBackground
  | resolveForeground
  | resolveOutline
  | drawFullHeightBackground
  | drawSmallBackground
  | drawClientIcon
  | drawMark (icon : IconKind)
deriving DecidableEq, Repr

/-- Whether a paint action is a colour resolution. -/
def PaintAction.isResolve : PaintAction → Bool
  | .resolveBackground | .resolveForeground | .resolveOutline => true
  | _ => false

/-- The outcome of one `Button::paint` invocation (breezebutton.cpp lines
135-214 together with `Button::drawIcon`, lines 217-357): the resolved
member colours, the low-contrast flag, the refreshed pre-animation colour
cache, the pen used for the icon mark (when one is drawn) and the ordered
action trace. -/
structure PaintResult where
  backgroundColor : QColor
  foregroundColor : QColor
  outlineColor : QColor
  lowContrast : Bool
  preAnimationForegroundColor : QColor
  preAnimationBackgroundColor : QColor
  preAnimationOutlineColor : QColor
  markPen : Option QPen
  trace : List PaintAction
deriving Repr

/-- `Button::paint` (breezebutton.cpp lines 135-214).  Returns `none` for
the early return when the button has no decoration.  Geometry, palette
plumbing and the icon renderer internals are abstracted away; the colour
resolution order, the low-contrast computation, the pre-animation cache
update and the painted artefacts are kept. -/
def Button.paint (env : Env) (deco : Option Decoration) (st : ButtonState) :
    Option PaintResult :=
  match deco with
  | Option.none => Option.none
  | some d =>
    -- setStandardScaledPenWidth (line 151)
    let st1 : ButtonState :=
      { st with standardScaledPenWidth :=
          standardScaledPenWidthValue env st.devicePixelRatio }
    -- m_backgroundColor = this->backgroundColor(backgroundColorToContrastWithForeground)
    let bgPair := backgroundColorPair env (some d) st1 false
    let mBackgroundColor := bgPair.1
    -- m_foregroundColor = this->foregroundColor(backgroundColorToContrastWithForeground)
    let mForegroundColor := foregroundColor env (some d) st1 bgPair.2
    -- m_lowContrastBetweenTitleBarAndBackground (lines 158-159)
    let lowContrast :=
      (d.internalSettings.backgroundColors ≠ EnumBackgroundColors.ColorsTitlebarText)
        && decide (env.contrastRatio mBackgroundColor d.titleBarColor < 13/10)
    let st2 : ButtonState :=
      { st1 with lowContrastBetweenTitleBarAndBackground := lowContrast }
    -- m_outlineColor = this->outlineColor()
    let mOutlineColor := outlineColor env (some d) st2 false
    -- cache colours for future animations (lines 164-168)
    let cache :=
      if !st.animationRunning && !st.hovered then
        (mForegroundColor, mBackgroundColor, mOutlineColor)
      else
        (st.preAnimationForegroundColor, st.preAnimationBackgroundColor,
         st.preAnimationOutlineColor)
    -- drawing
    let drawActions : List PaintAction × Option QPen :=
      if st.btnType = DecorationButtonType.Menu then
        ((if d.buttonBackgroundType = ButtonBackgroundType.FullHeight
             && !(st.standalone || st.isGtkCsdButton) then
            [PaintAction.drawFullHeightBackground]
          else []) ++ [PaintAction.drawClientIcon], Option.none)
      else
        -- Button::drawIcon
        ((if !(st.standalone || st.isGtkCsdButton)
             && d.buttonBackgroundType = ButtonBackgroundType.FullHeight then
            [PaintAction.drawFullHeightBackground]
          else []) ++
         (if d.buttonBackgroundType = ButtonBackgroundType.Small
             || st.standalone || st.isGtkCsdButton then
            [PaintAction.drawSmallBackground]
          else []) ++
         (if mForegroundColor.isValid then
            match renderedIcon st.btnType st.checked with
            | some i => [PaintAction.drawMark i]
            | Option.none => []
          else []),
         if mForegroundColor.isValid then
           some (iconMarkPen env st2 mForegroundColor)
         else Option.none)
    some
      { backgroundColor := mBackgroundColor
        foregroundColor := mForegroundColor
        outlineColor := mOutlineColor
        lowContrast := lowContrast
        preAnimationForegroundColor := cache.1
        preAnimationBackgroundColor := cache.2.1
        preAnimationOutlineColor := cache.2.2
        markPen := drawActions.2
        trace := [PaintAction.resolveBackground, PaintAction.resolveForeground,
                  PaintAction.resolveOutline] ++ drawActions.1 }

/-- Direction values of `QAbstractAnimation`. -/
inductive AnimationDirection where
  | Forward | Backward
deriving DecidableEq, Repr

/-- Model of the `QVariantAnimation` member `m_animation`: whether it is
running, its direction, its configured duration (ms), and its current
time; `start()` on a stopped animation begins playing at time 0. -/
structure AnimationState where
  running : Bool
  direction : AnimationDirection
  duration : Int
  currentTime : Int
deriving DecidableEq, Repr

/-- `Button::reconfigure` (breezebutton.cpp lines 1059-1066): copies the
decoration's `animationsDuration` into the animation. -/
def Button.reconfigure (deco : Option Decoration) (a : AnimationState) :
    AnimationState :=
  match deco with
  | some d => { a with duration := d.animationsDuration }
  | Option.none => a

/-- `Button::updateAnimationState(bool hovered)` (breezebutton.cpp lines
1069-1080): no-op unless a decoration exists with positive
`animationsDuration`; otherwise sets the direction from the hover flag
and calls `start()` only when not already running. -/
def Button.updateAnimationState (deco : Option Decoration) (hovered : Bool)
    (a : AnimationState) : AnimationState :=
  match deco with
  | Option.none => a
  | some d =>
    if d.animationsDuration > 0 then
      let a1 := { a with direction :=
        if hovered then AnimationDirection.Forward else AnimationDirection.Backward }
      if a1.running then a1
      else { a1 with running := true, currentTime := 0 }
    else a

/-- Qt's `QEasingCurve::InOutQuad` progress curve. -/
def inOutQuad (t : ℚ) : ℚ :=
  if t < 1/2 then 2 * t * t else 1 - 2 * (1 - t) * (1 - t)

/-- The current value of `m_animation` (and hence `m_opacity`, via the
`valueChanged` connection in `Button::Button`, breezebutton.cpp lines
41-46): a `QVariantAnimation` from 0.0 to 1.0 whose easing curve is set
to `QEasingCurve::InOutQuad`, evaluated at elapsed/duration. -/
def animationCurrentValue (duration elapsed : ℚ) : ℚ :=
  inOutQuad (elapsed / duration)

/-- The UI control values read by `TitleBarOpacity::save`
(titlebaropacity.cpp).  The checkbox whose source name starts with
"opaque…" is modelled as `maximizedTitlebarsSolidChecked`. -/
structure TitleBarOpacityUi where
  overrideActiveTitleBarOpacityChecked : Bool
  overrideInactiveTitleBarOpacityChecked : Bool
  activeTitlebarOpacityValue : Int
  inactiveTitlebarOpacityValue : Int
  maximizedTitlebarsSolidChecked : Bool
  blurTransparentTitlebarsChecked : Bool
  applyOpacityToHeaderChecked : Bool
deriving DecidableEq, Repr

/-- The persisted `InternalSettings` fields `TitleBarOpacity::save`
writes.  `maximizedTitlebarsSolid` models the setting whose source name
starts with "opaque…". -/
structure TitleBarOpacitySettings where
  overrideActiveTitleBarOpacity : Bool
  overrideInactiveTitleBarOpacity : Bool
  activeTitlebarOpacity : Int
  inactiveTitlebarOpacity : Int
  maximizedTitlebarsSolid : Bool
  blurTransparentTitlebars : Bool
  applyOpacityToHeader : Bool
deriving DecidableEq, Repr

/-- `TitleBarOpacity::save` (titlebaropacity.cpp lines 103-135), as the
transformation from the freshly loaded settings and the UI state to the
settings that get persisted.  `translucentActive`/`translucentInactive`
model `m_translucentActiveSchemeColor`/`m_translucentInactiveSchemeColor`
(the system scheme titlebar colour has alpha ≠ 255). -/
def TitleBarOpacity.save (translucentActive translucentInactive : Bool)
    (ui : TitleBarOpacityUi) (loaded : TitleBarOpacitySettings) :
    TitleBarOpacitySettings :=
  let s1 :=
    if translucentActive then
      { loaded with overrideActiveTitleBarOpacity :=
          ui.overrideActiveTitleBarOpacityChecked }
    else loaded
  let s2 :=
    if translucentInactive then
      { s1 with overrideInactiveTitleBarOpacity :=
          ui.overrideInactiveTitleBarOpacityChecked }
    else s1
  let s3 :=
    if !translucentActive
        || (translucentActive && ui.overrideActiveTitleBarOpacityChecked) then
      { s2 with activeTitlebarOpacity := ui.activeTitlebarOpacityValue }
    else s2
  -- NB: the guard below tests the ACTIVE-side flags (titlebaropacity.cpp
  -- line 118), not the inactive-side ones
  let s4 :=
    if !translucentInactive
        || (translucentActive && ui.overrideActiveTitleBarOpacityChecked) then
      { s3 with inactiveTitlebarOpacity := ui.inactiveTitlebarOpacityValue }
    else s3
  { s4 with
    maximizedTitlebarsSolid := ui.maximizedTitlebarsSolidChecked
    blurTransparentTitlebars := ui.blurTransparentTitlebarsChecked
    applyOpacityToHeader := ui.applyOpacityToHeaderChecked }

/-- The argument of `Button::create`: a `KDecoration2::Decoration`
pointer, which either is a `Breeze::Decoration` (so that
`qobject_cast<Decoration *>` succeeds) or is not. -/
inductive KDecorationPointer where
  | breeze (d : Decoration)
  | nonBreeze

/-- Whether the pointer is a `Breeze::Decoration`. -/
def KDecorationPointer.isBreezeDecoration : KDecorationPointer → Bool
  | .breeze _ => true
  | .nonBreeze => false

/-- `Button::create` (breezebutton.cpp lines 85-132): constructs a button
when the `qobject_cast` to `Breeze::Decoration` succeeds and returns null
otherwise.  The constructed button's visibility wiring is abstracted; the
returned value records the button type it was created with. -/
def Button.create (ty : DecorationButtonType) (deco : KDecorationPointer) :
    Option DecorationButtonType :=
  match deco with
  | .breeze _ => some ty
  | .nonBreeze => Option.none

/-! ## Concrete sample data for witnesses and counterexamples -/

/-- A sample palette in which every colour is a distinct valid colour. -/
def samplePalette : DecorationColorPalette where
  negative := .rgba 218 68 63 255
  negativeSaturated := .rgba 230 40 40 255
  negativeLessSaturated := .rgba 200 90 90 255
  fullySaturatedNegative := .rgba 255 0 0 255
  negativeReducedOpacityBackground := .rgba 218 68 63 80
  negativeReducedOpacityOutline := .rgba 218 68 63 150
  negativeReducedOpacityLessSaturatedBackground := .rgba 200 90 90 80
  neutral := .rgba 240 183 80 255
  neutralSaturated := .rgba 250 170 40 255
  neutralLessSaturated := .rgba 230 200 120 255
  neutralReducedOpacityBackground := .rgba 240 183 80 80
  neutralReducedOpacityOutline := .rgba 240 183 80 150
  positive := .rgba 60 190 100 255
  positiveSaturated := .rgba 30 200 80 255
  positiveLessSaturated := .rgba 100 180 120 255
  positiveReducedOpacityBackground := .rgba 60 190 100 80
  positiveReducedOpacityOutline := .rgba 60 190 100 150
  buttonFocus := .rgba 61 174 233 255
  buttonHover := .rgba 100 150 200 255
  buttonReducedOpacityBackground := .rgba 61 174 233 80
  buttonReducedOpacityOutline := .rgba 61 174 233 150

/-- A sample environment with simple executable stand-ins for the
abstract external helpers. -/
def sampleEnv : Env where
  alphaMix := fun c _ => c
  contrastBoost := fun fg _ _ => fg
  contrastRatio := fun _ _ => 1
  decorationColors := samplePalette
  penWidthSymbol := 101/100

/-- Behavioural parameters with every flag off. -/
def allOffParams : ButtonBehaviouralParameters where
  drawBackgroundAlways := false
  drawBackgroundOnHover := false
  drawBackgroundOnFocus := false
  drawCloseBackgroundAlways := false
  drawCloseBackgroundOnHover := false
  drawCloseBackgroundOnFocus := false
  drawOutlineAlways := false
  drawOutlineOnHover := false
  drawOutlineOnFocus := false
  drawCloseOutlineAlways := false
  drawCloseOutlineOnHover := false
  drawCloseOutlineOnFocus := false
  drawIconAlways := false
  drawIconOnHover := false
  drawIconOnFocus := false

/-- Sample settings: titlebar-text colours, nothing translucent. -/
def sampleSettings : InternalSettings where
  backgroundColors := .ColorsTitlebarText
  translucentButtonBackgrounds := false
  redAlwaysShownClose := false
  buttonShape := .ShapeSmallCircle
  cornerRadius := 3/10

/-- A sample decoration with a black titlebar and white font. -/
def sampleDecoration : Decoration where
  internalSettings := sampleSettings
  buttonBehaviouralParameters :=
    { allOffParams with drawBackgroundAlways := true, drawBackgroundOnHover := true }
  fontColor := .rgba 255 255 255 255
  titleBarColor := .rgba 0 0 0 255
  animationsDuration := 150
  buttonBackgroundType := .Small

/-- A quiescent minimize-button state: nothing hovered, pressed, checked
or animating. -/
def idleState : ButtonState where
  btnType := .Minimize
  hovered := false
  pressed := false
  checked := false
  animationRunning := false
  opacity := 0
  preAnimationForegroundColor := .invalid
  preAnimationBackgroundColor := .invalid
  preAnimationOutlineColor := .invalid
  lowContrastBetweenTitleBarAndBackground := false
  isGtkCsdButton := false
  standalone := false
  devicePixelRatio := 1
  standardScaledPenWidth := 101/100

/-- A sample decoration using accent background colours. -/
def accentDecoration : Decoration :=
  { sampleDecoration with internalSettings :=
      { sampleSettings with backgroundColors := .ColorsAccent } }

/-- A state like `idleState` but mid-animation: the hover animation is
running at full opacity with cached pre-animation colours. -/
def animState : ButtonState :=
  { idleState with
    animationRunning := true
    opacity := 1
    preAnimationForegroundColor := .rgba 1 1 1 255
    preAnimationBackgroundColor := .rgba 10 20 30 255
    preAnimationOutlineColor := .rgba 2 2 2 255 }

/-- A decoration that draws button backgrounds only on hover. -/
def hoverOnlyDecoration : Decoration :=
  { sampleDecoration with buttonBehaviouralParameters :=
      { allOffParams with drawBackgroundOnHover := true } }

/-- A decoration drawing the close button's background, outline, and icon
on hover only. -/
def closeHoverDecoration : Decoration :=
  { sampleDecoration with buttonBehaviouralParameters :=
      { allOffParams with
        drawCloseBackgroundOnHover := true
        drawCloseOutlineOnHover := true
        drawIconOnHover := true } }

/-- A close-button state mid-animation. -/
def closeAnimState : ButtonState := { animState with btnType := .Close }

/-- The contrast-boosted font colour computed at the top of
`Button::foregroundColor` (breezebutton.cpp lines 373-381). -/
def foregroundBoostedFontColor (env : Env) (d : Decoration) (b : QColor) : QColor :=
  if b.isValid then env.contrastBoost d.fontColor b (23/10) else d.fontColor

/-- The hover outline colour after `Button::outlineColor`'s low-contrast
correction: accent colour schemes run the correction, others use the
palette colour unchanged. -/
def outlineHoverColorResolved (env : Env) (d : Decoration) (st : ButtonState) :
    QColor :=
  let f := effectiveOutlineFlags d.buttonBehaviouralParameters
    st.lowContrastBetweenTitleBarAndBackground
  if isAccentColors d.internalSettings then
    outlineLowContrastCorrection env d (outlinePalette env d st f).2.1
  else (outlinePalette env d st f).2.1

/-- A decoration that always draws button icons. -/
def iconAlwaysDecoration : Decoration :=
  { sampleDecoration with buttonBehaviouralParameters :=
      { allOffParams with drawIconAlways := true } }

/-- A GTK CSD button state (rendered for the kde-gtk-config daemon) at
device pixel ratio 2. -/
def gtkCsdState : ButtonState :=
  { idleState with isGtkCsdButton := true, devicePixelRatio := 2 }

/-! ## Claim theorems -/

/-- **C3**: in `TitleBarOpacity::save` the inactive titlebar opacity from
the UI is persisted iff the inactive scheme colour is opaque or the
ACTIVE scheme colour is translucent with the ACTIVE override checkbox
checked — the guard reads the active-side flags — while the active
opacity uses the symmetric active-side condition. -/
theorem C3_inactive_opacity_guard_uses_active_flags
    (tA tI : Bool) (ui : TitleBarOpacityUi) (loaded : TitleBarOpacitySettings) :
    (TitleBarOpacity.save tA tI ui loaded).inactiveTitlebarOpacity
      = (if !tI || (tA && ui.overrideActiveTitleBarOpacityChecked) then
          ui.inactiveTitlebarOpacityValue
         else loaded.inactiveTitlebarOpacity)
    ∧ (TitleBarOpacity.save tA tI ui loaded).activeTitlebarOpacity
      = (if !tA || (tA && ui.overrideActiveTitleBarOpacityChecked) then
          ui.activeTitlebarOpacityValue
         else loaded.activeTitlebarOpacity) := by
  cases tA <;> cases tI <;>
    cases h : ui.overrideActiveTitleBarOpacityChecked <;>
    simp [TitleBarOpacity.save, h]

/-- **C6**: `paintSmallSizedButtonBackground` selects the painted shape
solely from the button shape setting and the corner radius: a plain
square for small-square, full-height-rectangle, or the two
rounded-rectangle shapes with corner radius below 0.2; a rounded square
for small-rounded-square or the two rounded-rectangle shapes with corner
radius at least 0.2; an ellipse otherwise. -/
theorem C6_small_background_shape_selection
    (s : InternalSettings) (bg outline : QColor)
    (hdraw : bg.isValid = true ∨ outline.isValid = true) :
    paintSmallSizedButtonBackground s bg outline = some (smallButtonBackgroundShape s)
    ∧ (smallButtonBackgroundShape s = .square ↔
        (s.buttonShape = EnumButtonShape.ShapeSmallSquare
          ∨ s.buttonShape = EnumButtonShape.ShapeFullHeightRectangle
          ∨ (s.cornerRadius < 1/5
              ∧ (s.buttonShape = EnumButtonShape.ShapeFullHeightRoundedRectangle
                 ∨ s.buttonShape = EnumButtonShape.ShapeIntegratedRoundedRectangle))))
    ∧ (smallButtonBackgroundShape s = .roundedSquare ↔
        (s.buttonShape = EnumButtonShape.ShapeSmallRoundedSquare
          ∨ (¬ s.cornerRadius < 1/5
              ∧ (s.buttonShape = EnumButtonShape.ShapeFullHeightRoundedRectangle
                 ∨ s.buttonShape = EnumButtonShape.ShapeIntegratedRoundedRectangle))))
    ∧ (smallButtonBackgroundShape s = .ellipseShape ↔
        s.buttonShape = EnumButtonShape.ShapeSmallCircle) := by
  refine ⟨?_, ?_, ?_, ?_⟩
  · rcases hdraw with h | h <;> simp [paintSmallSizedButtonBackground, h]
  all_goals
    rcases s with ⟨bc, tr, red, shape, radius⟩
    by_cases hr : radius < (5:ℚ)⁻¹ <;> cases shape <;>
      simp [smallButtonBackgroundShape, hr, one_div]

/-- **C6 witness**: the selection theorem applied at a concrete input
(small rounded square, valid background colour). -/
theorem C6_small_background_shape_selection_witness :
    paintSmallSizedButtonBackground
        { sampleSettings with buttonShape := .ShapeSmallRoundedSquare }
        (QColor.rgba 1 2 3 255) QColor.invalid
      = some (smallButtonBackgroundShape
          { sampleSettings with buttonShape := .ShapeSmallRoundedSquare }) :=
  (C6_small_background_shape_selection
    { sampleSettings with buttonShape := .ShapeSmallRoundedSquare }
    (QColor.rgba 1 2 3 255) QColor.invalid (Or.inl rfl)).1

/-- **C8**: the animation duration is taken from the decoration's
`animationsDuration` at `reconfigure` time; `updateAnimationState` never
starts the animation when that duration is zero or negative; when it
runs it, the direction is forward on hover and backward on unhover, and
an already-running animation is only redirected, never restarted. -/
theorem C8_animation_duration_and_start
    (d : Decoration) (a : AnimationState) (hovered : Bool) :
    (Button.reconfigure (some d) a).duration = d.animationsDuration
    ∧ (d.animationsDuration ≤ 0 → Button.updateAnimationState (some d) hovered a = a)
    ∧ (d.animationsDuration > 0 →
        (Button.updateAnimationState (some d) hovered a).direction
            = (if hovered then AnimationDirection.Forward else AnimationDirection.Backward)
        ∧ (Button.updateAnimationState (some d) hovered a).running = true
        ∧ (a.running = true →
            Button.updateAnimationState (some d) hovered a
              = { a with direction :=
                    if hovered then AnimationDirection.Forward
                    else AnimationDirection.Backward })) := by
  refine ⟨rfl, ?_, ?_⟩
  · intro hle
    simp [Button.updateAnimationState, not_lt.mpr hle]
  · intro hgt
    refine ⟨?_, ?_, ?_⟩
    · cases hr : a.running <;> simp [Button.updateAnimationState, hgt, hr]
    · cases hr : a.running <;> simp [Button.updateAnimationState, hgt, hr]
    · intro hr
      simp [Button.updateAnimationState, hgt, hr]

/-- **C8 witness**: with a non-positive duration nothing starts; with a
positive duration a running animation is only redirected. -/
theorem C8_animation_duration_and_start_witness :
    (Button.updateAnimationState
        (some { sampleDecoration with animationsDuration := 0 }) true
        { running := false, direction := .Backward, duration := 0, currentTime := 0 }
      = { running := false, direction := .Backward, duration := 0, currentTime := 0 })
    ∧ (Button.updateAnimationState (some sampleDecoration) true
        { running := true, direction := .Backward, duration := 150, currentTime := 42 }
      = { running := true, direction := .Forward, duration := 150, currentTime := 42 }) :=
  ⟨(C8_animation_duration_and_start _ _ true).2.1 (by decide),
   ((C8_animation_duration_and_start sampleDecoration _ true).2.2 (by decide)).2.2 rfl⟩

/-- **C5**: `drawIcon` renders exactly the icon matching the button type
(restore/maximize, pinned/pin and unshade/shade switching on the checked
state), while the Menu button is painted from the client's window icon
and never through the icon renderer. -/
theorem C5_icon_matches_button_type :
    (∀ ck, renderedIcon .Close ck = some .closeIcon)
    ∧ renderedIcon .Maximize true = some .restoreIcon
    ∧ renderedIcon .Maximize false = some .maximizeIcon
    ∧ (∀ ck, renderedIcon .Minimize ck = some .minimizeIcon)
    ∧ renderedIcon .OnAllDesktops true = some .pinnedOnAllDesktopsIcon
    ∧ renderedIcon .OnAllDesktops false = some .pinOnAllDesktopsIcon
    ∧ renderedIcon .Shade true = some .unShadeIcon
    ∧ renderedIcon .Shade false = some .shadeIcon
    ∧ (∀ ck, renderedIcon .KeepBelow ck = some .keepBehindIcon)
    ∧ (∀ ck, renderedIcon .KeepAbove ck = some .keepInFrontIcon)
    ∧ (∀ ck, renderedIcon .ApplicationMenu ck = some .applicationMenuIcon)
    ∧ (∀ ck, renderedIcon .ContextHelp ck = some .contextHelpIcon)
    ∧ (∀ env (d : Decoration) (st : ButtonState),
        st.btnType = DecorationButtonType.Menu →
        ∃ pr, Button.paint env (some d) st = some pr
          ∧ PaintAction.drawClientIcon ∈ pr.trace
          ∧ ∀ i, PaintAction.drawMark i ∉ pr.trace) := by
  refine ⟨fun _ => rfl, rfl, rfl, fun _ => rfl, rfl, rfl, rfl, rfl,
    fun _ => rfl, fun _ => rfl, fun _ => rfl, fun _ => rfl, ?_⟩
  intro env d st hM
  refine ⟨_, rfl, ?_, ?_⟩
  · by_cases hb : (d.buttonBackgroundType = ButtonBackgroundType.FullHeight
        && !(st.standalone || st.isGtkCsdButton)) = true <;>
      simp [Button.paint, hM, hb]
  · intro i
    by_cases hb : (d.buttonBackgroundType = ButtonBackgroundType.FullHeight
        && !(st.standalone || st.isGtkCsdButton)) = true <;>
      simp [Button.paint, hM, hb]

/-- **C5 witness**: the Menu clause applied at a concrete input. -/
theorem C5_icon_matches_button_type_witness :
    ∃ pr, Button.paint sampleEnv (some sampleDecoration)
        { idleState with btnType := .Menu } = some pr
      ∧ PaintAction.drawClientIcon ∈ pr.trace
      ∧ ∀ i, PaintAction.drawMark i ∉ pr.trace :=
  C5_icon_matches_button_type.2.2.2.2.2.2.2.2.2.2.2.2
    sampleEnv sampleDecoration { idleState with btnType := .Menu } rfl

/-- **C4**: every `Button::paint` invocation resolves the background
colour first, feeds its contrast-reference output into the foreground
computation, resolves the outline after both, and only afterwards draws
the background shape, outline and icon: the trace starts with the three
resolutions and everything after them is a drawing action. -/
theorem C4_paint_resolves_colors_before_drawing
    (env : Env) (d : Decoration) (st : ButtonState) :
    ∃ pr, Button.paint env (some d) st = some pr
      ∧ pr.backgroundColor = (backgroundColorPair env (some d) st false).1
      ∧ pr.foregroundColor
          = foregroundColor env (some d) st (backgroundColorPair env (some d) st false).2
      ∧ pr.outlineColor
          = outlineColor env (some d)
              { st with lowContrastBetweenTitleBarAndBackground :=
                  (d.internalSettings.backgroundColors
                      ≠ EnumBackgroundColors.ColorsTitlebarText)
                    && decide (env.contrastRatio pr.backgroundColor d.titleBarColor
                        < 13/10) }
              false
      ∧ pr.trace.take 3
          = [PaintAction.resolveBackground, PaintAction.resolveForeground,
             PaintAction.resolveOutline]
      ∧ ∀ a ∈ pr.trace.drop 3, a.isResolve = false := by
  refine ⟨_, rfl, rfl, rfl, rfl, rfl, ?_⟩
  intro a ha
  by_cases hM : st.btnType = DecorationButtonType.Menu
  · simp only [PaintResult.trace, hM, if_pos] at ha
    simp at ha
    rcases ha with ⟨-, rfl⟩ | rfl <;> rfl
  · simp only [PaintResult.trace, hM, if_neg] at ha
    simp at ha
    rcases ha with ⟨-, rfl⟩ | ⟨-, rfl⟩ | ⟨-, hmem⟩
    · rfl
    · rfl
    · cases hri : renderedIcon st.btnType st.checked <;> rw [hri] at hmem
      · cases hmem
      · simp at hmem
        subst hmem
        rfl

/-- **C4 witness**: the ordering theorem applied at a concrete input. -/
theorem C4_paint_resolves_colors_before_drawing_witness :
    ∃ pr, Button.paint sampleEnv (some sampleDecoration) idleState = some pr
      ∧ pr.backgroundColor
          = (backgroundColorPair sampleEnv (some sampleDecoration) idleState false).1
      ∧ pr.foregroundColor
          = foregroundColor sampleEnv (some sampleDecoration) idleState
              (backgroundColorPair sampleEnv (some sampleDecoration) idleState false).2
      ∧ pr.outlineColor
          = outlineColor sampleEnv (some sampleDecoration)
              { idleState with lowContrastBetweenTitleBarAndBackground :=
                  ((sampleDecoration.internalSettings.backgroundColors
                      ≠ EnumBackgroundColors.ColorsTitlebarText)
                    && decide (sampleEnv.contrastRatio pr.backgroundColor
                        sampleDecoration.titleBarColor < 13/10)) }
              false
      ∧ pr.trace.take 3
          = [PaintAction.resolveBackground, PaintAction.resolveForeground,
             PaintAction.resolveOutline]
      ∧ ∀ a ∈ pr.trace.drop 3, a.isResolve = false :=
  C4_paint_resolves_colors_before_drawing sampleEnv sampleDecoration idleState

/-- **C9**: whenever the background-colours setting is not
ColorsTitlebarText and the contrast ratio between the resolved background
colour and the titlebar colour is below 1.3, the low-contrast flag is set
and each of the six effective outline-draw flags used by `outlineColor`
is the OR of the configured outline flag with the corresponding
background-draw flag, so each background-draw flag forces the matching
outline flag. -/
theorem C9_low_contrast_outline_flags_or_background_flags
    (env : Env) (d : Decoration) (st : ButtonState)
    (hBC : d.internalSettings.backgroundColors
        ≠ EnumBackgroundColors.ColorsTitlebarText)
    (hCR : env.contrastRatio (backgroundColor env (some d) st false) d.titleBarColor
        < 13/10) :
    ∃ pr, Button.paint env (some d) st = some pr
      ∧ pr.lowContrast = true
      ∧ (effectiveOutlineFlags d.buttonBehaviouralParameters pr.lowContrast
          = { drawOutlineAlways := d.buttonBehaviouralParameters.drawOutlineAlways
                || d.buttonBehaviouralParameters.drawBackgroundAlways
              drawOutlineOnHover := d.buttonBehaviouralParameters.drawOutlineOnHover
                || d.buttonBehaviouralParameters.drawBackgroundOnHover
              drawOutlineOnFocus := d.buttonBehaviouralParameters.drawOutlineOnFocus
                || d.buttonBehaviouralParameters.drawBackgroundOnFocus
              drawCloseOutlineAlways := d.buttonBehaviouralParameters.drawCloseOutlineAlways
                || d.buttonBehaviouralParameters.drawCloseBackgroundAlways
              drawCloseOutlineOnHover := d.buttonBehaviouralParameters.drawCloseOutlineOnHover
                || d.buttonBehaviouralParameters.drawCloseBackgroundOnHover
              drawCloseOutlineOnFocus := d.buttonBehaviouralParameters.drawCloseOutlineOnFocus
                || d.buttonBehaviouralParameters.drawCloseBackgroundOnFocus })
      ∧ (d.buttonBehaviouralParameters.drawBackgroundAlways = true →
          (effectiveOutlineFlags d.buttonBehaviouralParameters pr.lowContrast).drawOutlineAlways
            = true)
      ∧ (d.buttonBehaviouralParameters.drawBackgroundOnHover = true →
          (effectiveOutlineFlags d.buttonBehaviouralParameters pr.lowContrast).drawOutlineOnHover
            = true)
      ∧ (d.buttonBehaviouralParameters.drawBackgroundOnFocus = true →
          (effectiveOutlineFlags d.buttonBehaviouralParameters pr.lowContrast).drawOutlineOnFocus
            = true)
      ∧ (d.buttonBehaviouralParameters.drawCloseBackgroundAlways = true →
          (effectiveOutlineFlags d.buttonBehaviouralParameters
              pr.lowContrast).drawCloseOutlineAlways = true)
      ∧ (d.buttonBehaviouralParameters.drawCloseBackgroundOnHover = true →
          (effectiveOutlineFlags d.buttonBehaviouralParameters
              pr.lowContrast).drawCloseOutlineOnHover = true)
      ∧ (d.buttonBehaviouralParameters.drawCloseBackgroundOnFocus = true →
          (effectiveOutlineFlags d.buttonBehaviouralParameters
              pr.lowContrast).drawCloseOutlineOnFocus = true) := by
  have hbg : (backgroundColorPair env (some d)
      { st with standardScaledPenWidth :=
          standardScaledPenWidthValue env st.devicePixelRatio }
      false).1 = backgroundColor env (some d) st false := rfl
  have hLC : ((d.internalSettings.backgroundColors
        ≠ EnumBackgroundColors.ColorsTitlebarText)
      && decide (env.contrastRatio (backgroundColorPair env (some d)
          { st with standardScaledPenWidth :=
              standardScaledPenWidthValue env st.devicePixelRatio }
          false).1 d.titleBarColor < 13/10)) = true := by
    rw [hbg]
    simp only [hBC, ne_eq, not_false_iff, decide_True, Bool.true_and]
    exact decide_eq_true hCR
  refine ⟨_, rfl, ?_, ?_⟩
  · dsimp only
    exact hLC
  · dsimp only
    rw [hLC]
    refine ⟨rfl, ?_, ?_, ?_, ?_, ?_, ?_⟩ <;>
      intro h <;> simp [effectiveOutlineFlags, h]

/-- **C9 witness**: the low-contrast hypothesis holds and the flag
theorem applies at a concrete accent-coloured input. -/
theorem C9_low_contrast_outline_flags_or_background_flags_witness :
    (sampleEnv.contrastRatio
        (backgroundColor sampleEnv (some accentDecoration) idleState false)
        accentDecoration.titleBarColor < 13/10)
    ∧ ∃ pr, Button.paint sampleEnv (some accentDecoration) idleState = some pr
        ∧ pr.lowContrast = true := by
  have hr1 : sampleEnv.contrastRatio
      (backgroundColor sampleEnv (some accentDecoration) idleState false)
      accentDecoration.titleBarColor = 1 := rfl
  have hlt : sampleEnv.contrastRatio
      (backgroundColor sampleEnv (some accentDecoration) idleState false)
      accentDecoration.titleBarColor < 13/10 :=
    lt_of_le_of_lt (le_of_eq hr1) (by norm_num)
  have hne : accentDecoration.internalSettings.backgroundColors
      ≠ EnumBackgroundColors.ColorsTitlebarText := fun h => nomatch h
  refine ⟨hlt, ?_⟩
  obtain ⟨pr, h1, h2, -⟩ := C9_low_contrast_outline_flags_or_background_flags
    sampleEnv accentDecoration idleState hne hlt
  exact ⟨pr, h1, h2⟩

/-- **C10**: with no Breeze decoration each resolver returns the invalid
colour (and `backgroundColor` leaves its contrast output invalid);
`foregroundColor` also returns the invalid colour whenever no
icon-drawing condition applies (not pressed with drawIconOnFocus, not a
checked toggle button, not animating or hovered with drawIconOnHover,
and drawIconAlways off); and `Button::create` returns null exactly when
the supplied decoration is not a `Breeze::Decoration`. -/
theorem C10_invalid_color_and_null_create
    (env : Env) (st : ButtonState) (b : QColor) (g : Bool)
    (ty : DecorationButtonType) (kp : KDecorationPointer) (d : Decoration)
    (h1 : (st.pressed && d.buttonBehaviouralParameters.drawIconOnFocus) = false)
    (h2 : ((st.btnType = DecorationButtonType.KeepBelow
        || st.btnType = DecorationButtonType.KeepAbove
        || st.btnType = DecorationButtonType.Shade) && st.checked) = false)
    (h3 : ((st.btnType = DecorationButtonType.OnAllDesktops) && st.checked) = false)
    (h4 : (st.animationRunning && d.buttonBehaviouralParameters.drawIconOnHover) = false)
    (h5 : (st.hovered && d.buttonBehaviouralParameters.drawIconOnHover) = false)
    (h6 : d.buttonBehaviouralParameters.drawIconAlways = false) :
    foregroundColor env Option.none st b = QColor.invalid
    ∧ backgroundColorPair env Option.none st g = (QColor.invalid, QColor.invalid)
    ∧ outlineColor env Option.none st g = QColor.invalid
    ∧ foregroundColor env (some d) st b = QColor.invalid
    ∧ (Button.create ty kp).isNone = !kp.isBreezeDecoration := by
  have hstate : foregroundColorState d st = .none := by
    simp [foregroundColorState, h1, h2, h3, h4, h5, h6]
  refine ⟨rfl, rfl, rfl, ?_, ?_⟩
  · simp [foregroundColor, hstate]
  · cases kp <;> rfl

/-- **C10 witness**: the fallback theorem applied at a concrete idle
state with all icon-drawing flags off and a non-Breeze decoration. -/
theorem C10_invalid_color_and_null_create_witness :
    foregroundColor sampleEnv Option.none idleState QColor.invalid = QColor.invalid
    ∧ backgroundColorPair sampleEnv Option.none idleState false
        = (QColor.invalid, QColor.invalid)
    ∧ outlineColor sampleEnv Option.none idleState false = QColor.invalid
    ∧ foregroundColor sampleEnv (some sampleDecoration) idleState QColor.invalid
        = QColor.invalid
    ∧ (Button.create .Close KDecorationPointer.nonBreeze).isNone
        = !KDecorationPointer.nonBreeze.isBreezeDecoration :=
  C10_invalid_color_and_null_create sampleEnv idleState QColor.invalid false
    .Close KDecorationPointer.nonBreeze sampleDecoration rfl rfl rfl rfl rfl rfl

/-- **C1 counterexample**: two evaluations of `backgroundColor` with
identical button type and interaction state (hovered, pressed, checked)
under the same decoration and settings return different colours, because
the resolver reads the running animation's progress and the cached
pre-animation colour. -/
theorem C1_counterexample :
    idleState.btnType = animState.btnType
    ∧ idleState.hovered = animState.hovered
    ∧ idleState.pressed = animState.pressed
    ∧ idleState.checked = animState.checked
    ∧ backgroundColor sampleEnv (some hoverOnlyDecoration) idleState false
        ≠ backgroundColor sampleEnv (some hoverOnlyDecoration) animState false := by
  refine ⟨rfl, rfl, rfl, rfl, ?_⟩
  have e1 : backgroundColor sampleEnv (some hoverOnlyDecoration) idleState false
      = QColor.invalid := rfl
  have e2 : backgroundColor sampleEnv (some hoverOnlyDecoration) animState false
      = KColorUtils.mix (QColor.rgba 10 20 30 255) (QColor.rgba 255 255 255 255)
          1 := rfl
  rw [e1, e2]
  norm_num [KColorUtils.mix]
  exact fun h => nomatch h

/-- **C1 amended**: the colour resolvers are deterministic once the
animation's running state and progress and the cached pre-animation
colours (and, for the outline, the low-contrast flag computed by paint)
are counted among the inputs: the outputs are invariant under every
change of the remaining mutable button state (GTK CSD flag, standalone
flag, device pixel ratio, scaled pen width, and for
foreground/background also the low-contrast flag). -/
theorem C1_amended_determinism (env : Env) (deco : Option Decoration)
    (st : ButtonState) (b : QColor) (g : Bool)
    (gtk sa lc : Bool) (dpr pw : ℚ) :
    (foregroundColor env deco
        { st with
          isGtkCsdButton := gtk
          standalone := sa
          devicePixelRatio := dpr
          standardScaledPenWidth := pw
          lowContrastBetweenTitleBarAndBackground := lc } b
      = foregroundColor env deco st b)
    ∧ (backgroundColorPair env deco
        { st with
          isGtkCsdButton := gtk
          standalone := sa
          devicePixelRatio := dpr
          standardScaledPenWidth := pw
          lowContrastBetweenTitleBarAndBackground := lc } g
      = backgroundColorPair env deco st g)
    ∧ (outlineColor env deco
        { st with
          isGtkCsdButton := gtk
          standalone := sa
          devicePixelRatio := dpr
          standardScaledPenWidth := pw } g
      = outlineColor env deco st g) := by
  cases deco with
  | none => exact ⟨rfl, rfl, rfl⟩
  | some d => exact ⟨rfl, rfl, rfl⟩

/-- **C2 counterexample**: the animation fraction does not advance
linearly from 0 to 1 over the duration: `Button::Button` installs a
`QEasingCurve::InOutQuad` easing curve, so a quarter of the way through a
1000 ms animation the fraction is 1/8, not 1/4. -/
theorem C2_counterexample :
    animationCurrentValue 1000 250 = 1/8 ∧ animationCurrentValue 1000 250 ≠ 250/1000 := by
  constructor <;> norm_num [animationCurrentValue, inOutQuad]

/-- **C2 amended**: while a hover animation is running (unchecked,
unpressed button), the resolved background, foreground and outline
colours are each `KColorUtils::mix` of the cached pre-animation colour
and the corresponding hover colour at the animation's current fraction;
the fraction starts at 0, ends at 1 at the configured duration, and in
between follows Qt's InOutQuad easing of elapsed/duration rather than a
linear ramp. -/
theorem C2_amended_eased_interpolation (env : Env) (d : Decoration)
    (st : ButtonState) (b : QColor) (duration t : ℚ)
    (hRun : st.animationRunning = true)
    (hC : st.checked = false)
    (hP : st.pressed = false)
    (hPreB : st.preAnimationBackgroundColor.isValid = true)
    (hHovB : (backgroundPalette env d st).2.1.isValid = true)
    (hIconHover : d.buttonBehaviouralParameters.drawIconOnHover = true)
    (hPreF : st.preAnimationForegroundColor.isValid = true)
    (hPreO : st.preAnimationOutlineColor.isValid = true)
    (hHovO : (outlineHoverColorResolved env d st).isValid = true)
    (hDur : duration ≠ 0) :
    (backgroundColorPair env (some d) st false).1
        = KColorUtils.mix st.preAnimationBackgroundColor
            (backgroundPalette env d st).2.1 st.opacity
    ∧ foregroundColor env (some d) st b
        = KColorUtils.mix st.preAnimationForegroundColor
            (foregroundPalette d st (foregroundBoostedFontColor env d b)).2.1
            st.opacity
    ∧ outlineColor env (some d) st false
        = KColorUtils.mix st.preAnimationOutlineColor
            (outlineHoverColorResolved env d st) st.opacity
    ∧ animationCurrentValue duration 0 = 0
    ∧ animationCurrentValue duration duration = 1
    ∧ animationCurrentValue duration t = inOutQuad (t / duration) := by
  refine ⟨?_, ?_, ?_, ?_, ?_, rfl⟩
  · simp [backgroundColorPair, hRun, hC, hP, hPreB, hHovB]
  · simp [foregroundColor, foregroundColorState, foregroundBoostedFontColor,
      hRun, hC, hP, hIconHover, hPreF]
  · simp [outlineColor, outlineHoverColorResolved, hRun, hC, hP, hPreO, hHovO]
    intro h
    simp [outlineHoverColorResolved, h] at hHovO
  · norm_num [animationCurrentValue, inOutQuad]
  · rw [animationCurrentValue, div_self hDur]
    norm_num [inOutQuad]

/-- **C2 witness**: the amended interpolation theorem applied to a
concrete animating close button. -/
theorem C2_amended_eased_interpolation_witness :
    (backgroundColorPair sampleEnv (some closeHoverDecoration) closeAnimState false).1
        = KColorUtils.mix closeAnimState.preAnimationBackgroundColor
            (backgroundPalette sampleEnv closeHoverDecoration closeAnimState).2.1
            closeAnimState.opacity
    ∧ foregroundColor sampleEnv (some closeHoverDecoration) closeAnimState QColor.invalid
        = KColorUtils.mix closeAnimState.preAnimationForegroundColor
            (foregroundPalette closeHoverDecoration closeAnimState
              (foregroundBoostedFontColor sampleEnv closeHoverDecoration
                QColor.invalid)).2.1
            closeAnimState.opacity
    ∧ outlineColor sampleEnv (some closeHoverDecoration) closeAnimState false
        = KColorUtils.mix closeAnimState.preAnimationOutlineColor
            (outlineHoverColorResolved sampleEnv closeHoverDecoration closeAnimState)
            closeAnimState.opacity
    ∧ animationCurrentValue 1000 0 = 0
    ∧ animationCurrentValue 1000 1000 = 1
    ∧ animationCurrentValue 1000 250 = inOutQuad (250 / 1000) :=
  C2_amended_eased_interpolation sampleEnv closeHoverDecoration closeAnimState
    QColor.invalid 1000 250 rfl rfl rfl rfl rfl rfl rfl rfl rfl (by norm_num)

/-- **C7 counterexample**: for a GTK CSD button the icon pen is NOT
cosmetic and its width is the unscaled `PenWidth::Symbol`, not the
DPI-scaled width (`breezebutton.cpp` lines 276-282 deliberately avoid the
scaled cosmetic pen for kde-gtk-config). -/
theorem C7_counterexample :
    (Button.paint sampleEnv (some iconAlwaysDecoration) gtkCsdState).map
        (fun pr => pr.markPen.map QPen.cosmetic) = some (some false)
    ∧ (Button.paint sampleEnv (some iconAlwaysDecoration) gtkCsdState).map
        (fun pr => pr.markPen.map QPen.widthF)
      = some (some sampleEnv.penWidthSymbol)
    ∧ sampleEnv.penWidthSymbol
        ≠ standardScaledPenWidthValue sampleEnv gtkCsdState.devicePixelRatio := by
  refine ⟨rfl, rfl, ?_⟩
  have h1 : sampleEnv.penWidthSymbol = 101/100 := rfl
  have h2 : standardScaledPenWidthValue sampleEnv gtkCsdState.devicePixelRatio
      = 101/100 * 2 := rfl
  rw [h1, h2]
  norm_num

/-- **C7 amended**: every non-GTK-CSD button's icon mark is drawn with a
cosmetic pen whose width is `PenWidth::Symbol` times the device pixel
ratio; a GTK CSD button instead gets a non-cosmetic pen of width
`PenWidth::Symbol` unscaled. -/
theorem C7_amended_cosmetic_pen (env : Env) (d : Decoration) (st : ButtonState) :
    ∃ pr, Button.paint env (some d) st = some pr
      ∧ ∀ pen, pr.markPen = some pen →
          (st.isGtkCsdButton = false →
            pen.cosmetic = true
              ∧ pen.widthF = env.penWidthSymbol * st.devicePixelRatio)
          ∧ (st.isGtkCsdButton = true →
            pen.cosmetic = false ∧ pen.widthF = env.penWidthSymbol) := by
  refine ⟨_, rfl, ?_⟩
  intro pen hpen
  dsimp only at hpen
  by_cases hM : st.btnType = DecorationButtonType.Menu
  · rw [if_pos hM] at hpen
    exact Option.noConfusion hpen
  · rw [if_neg hM] at hpen
    dsimp only at hpen
    split at hpen
    · injection hpen with h
      subst h
      constructor <;> intro hg <;>
        simp [iconMarkPen, hg, standardScaledPenWidthValue]
    · exact Option.noConfusion hpen

/-- **C7 amended witness**: the pen theorem applied at a concrete
non-GTK button that always draws its icon. -/
theorem C7_amended_cosmetic_pen_witness :
    ∃ pr, Button.paint sampleEnv (some iconAlwaysDecoration) idleState = some pr
      ∧ ∀ pen, pr.markPen = some pen →
          pen.cosmetic = true
          ∧ pen.widthF = sampleEnv.penWidthSymbol * idleState.devicePixelRatio := by
  obtain ⟨pr, h1, h2⟩ :=
    C7_amended_cosmetic_pen sampleEnv iconAlwaysDecoration idleState
  exact ⟨pr, h1, fun pen hp => (h2 pen hp).1 rfl⟩

end Klassy
